import Mathlib

/-!
Verification of the Com-Factory deployment pipeline against its sources.

Each definition below is a shallow embedding of a function of the repository,
translated from the Python source named in its doc comment.  Remote cloud
calls (AWS, GoDaddy REST) are modelled by passing their outcomes in as
parameters or as explicit state, exactly where the Python code performs the
call; everything else follows the source line by line.
-/

/-
========================================================================
GoDaddy client retry policy — src/src/api/godaddy_client.py
========================================================================
-/

/-- The error taxonomy of `src/src/api/exceptions.py`: each constructor is one
of the `APIError` subclasses raised by `GoDaddyClient._make_request`. -/
inductive GDError
  | network
  | serverError
  | rateLimit
  | authentication
  | domainNotFound
  | domainNotAvailable
  | validationErr
  | insufficientFunds
  | invalidDomain
  | apiOther
deriving DecidableEq

/-- `check_availability` is decorated with
`retry_if_exception_type((NetworkError, ServerError, RateLimitError))`
(godaddy_client.py lines 218-223): these three kinds are retried. -/
def check_availability_retryable : GDError → Bool
  | .network => true
  | .serverError => true
  | .rateLimit => true
  | _ => false

/-- `suggest_domains` is decorated with
`retry_if_exception_type((NetworkError, ServerError))` (lines 263-268):
only those two kinds are retried. -/
def suggest_domains_retryable : GDError → Bool
  | .network => true
  | .serverError => true
  | _ => false

/-- `get_domain_schema` retries `(NetworkError, ServerError)` (lines 297-302). -/
def get_domain_schema_retryable : GDError → Bool :=
  suggest_domains_retryable

/-- `validate_purchase` retries `(NetworkError, ServerError)` (lines 321-326). -/
def validate_purchase_retryable : GDError → Bool :=
  suggest_domains_retryable

/-- `purchase_domain` retries `(NetworkError, ServerError)` (lines 359-364). -/
def purchase_domain_retryable : GDError → Bool :=
  suggest_domains_retryable

/-- `get_domains` retries `(NetworkError, ServerError)` (lines 420-425). -/
def get_domains_retryable : GDError → Bool :=
  suggest_domains_retryable

/-- `get_domain_details` retries `(NetworkError, ServerError)` (lines 446-451). -/
def get_domain_details_retryable : GDError → Bool :=
  suggest_domains_retryable

/-- `stop_after_attempt(3)` on `check_availability` (line 219). -/
def check_availability_max_attempts : Nat := 3

/-- `stop_after_attempt(3)` on `suggest_domains` (line 264). -/
def suggest_domains_max_attempts : Nat := 3

/-- `stop_after_attempt(2)` on `purchase_domain` (line 360,
"Only retry once for purchases"). -/
def purchase_domain_max_attempts : Nat := 2

/-- `stop_after_attempt(3)` on `get_domains` (line 421). -/
def get_domains_max_attempts : Nat := 3

/-- `stop_after_attempt(3)` on `get_domain_details` (line 447). -/
def get_domain_details_max_attempts : Nat := 3

/-- The `tenacity` `@retry(stop=stop_after_attempt(maxAttempts),
retry=retry_if_exception_type(E), reraise=True)` wrapper, counting attempts.
`op i` is the outcome of the i-th invocation (attempts numbered from 1);
the wrapper sleeps between attempts (wait_exponential), which does not affect
outcomes or counts and is not modelled.  The first argument of `tenacityGo`
is the number of attempts still permitted: on the last permitted attempt the
outcome is final (`reraise=True` re-raises the last error); earlier, a
retryable error leads to another attempt and any other error propagates
at once.  Returns the final outcome and the number of invocations made. -/
def tenacityGo {α : Type} (retryable : GDError → Bool) (op : Nat → Except GDError α) :
    Nat → Nat → Except GDError α × Nat
  | 0, i => (op i, i)
  | 1, i => (op i, i)
  | n + 2, i =>
    match op i with
    | .ok v => (.ok v, i)
    | .error e => if retryable e then tenacityGo retryable op (n + 1) (i + 1) else (.error e, i)

/-- A decorated GoDaddy operation: run `op` under the retry policy,
starting at attempt 1. -/
def tenacity_retry {α : Type} (retryable : GDError → Bool) (maxAttempts : Nat)
    (op : Nat → Except GDError α) : Except GDError α × Nat :=
  tenacityGo retryable op maxAttempts 1

/-- Claim C4 as stated: for every provider operation — availability check,
suggestions, list, details, purchase — a RateLimit (HTTP 429) error is
classified as transient (retried by the policy) rather than propagating on
first occurrence. -/
def claimC4 : Prop :=
  check_availability_retryable .rateLimit = true ∧
  suggest_domains_retryable .rateLimit = true ∧
  get_domains_retryable .rateLimit = true ∧
  get_domain_details_retryable .rateLimit = true ∧
  purchase_domain_retryable .rateLimit = true

/-
========================================================================
ACM certificate wait — src/src/services/aws_cdn_service.py
========================================================================
-/

/-- ACM certificate status, the five values the data model uses
(`PENDING_VALIDATION`, `ISSUED`, `FAILED`, `REVOKED`, `EXPIRED`). -/
inductive CertStatus
  | pendingValidation
  | issued
  | failed
  | revoked
  | expired
deriving DecidableEq

/-- The tuple `("FAILED", "REVOKED", "EXPIRED")` of
`wait_for_certificate` (aws_cdn_service.py line 178). -/
def acm_terminal_states : List CertStatus := [.failed, .revoked, .expired]

/-- Outcome of `wait_for_certificate`: normal return on `ISSUED`, the
`AWSCloudFrontError("Certificate entered terminal state: …")` raise, or the
`AWSCloudFrontError("Certificate not issued within … minutes")` raise. -/
inductive CertWaitResult
  | issued
  | terminalState (s : CertStatus)
  | timedOut
deriving DecidableEq

/-- The polling loop of `wait_for_certificate` (aws_cdn_service.py lines
166-191): `deadline = now + timeout_minutes * 60`; while `time < deadline`,
describe the certificate, return on `ISSUED`, raise on a terminal state,
otherwise sleep 30 s; past the deadline raise the timeout error.
`status k` is the status the k-th poll observes (the poll at time `30 * k`
seconds); `n` is the number of polls the deadline still allows from here
(each loop iteration advances the clock by exactly the 30-second sleep, so
the guard `time < deadline` holds for polls `k < 2 * timeout_minutes`). -/
def acmWaitFrom (status : Nat → CertStatus) : Nat → Nat → CertWaitResult
  | 0, _ => .timedOut
  | n + 1, k =>
    let s := status k
    if s = .issued then .issued
    else if s ∈ acm_terminal_states then .terminalState s
    else acmWaitFrom status n (k + 1)

/-- `wait_for_certificate(cert_arn, timeout_minutes)` over a trace of observed
statuses: `2 * timeout_minutes` polls fit before the deadline
(deadline `60 * timeout_minutes` seconds, one poll every 30 s from time 0). -/
def wait_for_certificate (status : Nat → CertStatus) (timeout_minutes : Nat) : CertWaitResult :=
  acmWaitFrom status (2 * timeout_minutes) 0

/-- Claim C2 as stated: for every certificate (status trace) and every
`timeout_minutes` value including 0, the wait returns successfully iff the
status reaches `ISSUED` before the timeout, raises the terminal-state error
iff the status reaches `FAILED`/`REVOKED`/`EXPIRED` before the timeout, and
raises the timeout error iff the deadline passes while the status is still
`PENDING_VALIDATION` (poll `2 * m` is the first at or past the deadline,
i.e. the status at the moment the deadline passes). -/
def claimC2 (status : Nat → CertStatus) (m : Nat) : Prop :=
  (wait_for_certificate status m = .issued ↔
    ∃ k, k < 2 * m ∧ status k = .issued) ∧
  ((∃ s, wait_for_certificate status m = .terminalState s) ↔
    ∃ k, k < 2 * m ∧ status k ∈ acm_terminal_states) ∧
  (wait_for_certificate status m = .timedOut ↔
    status (2 * m) = .pendingValidation)

/-
========================================================================
Certificate request and CloudFront distribution config —
src/src/services/aws_cdn_service.py
========================================================================
-/

/-- The keyword arguments `request_ssl_certificate` sends to
`acm_client.request_certificate` (aws_cdn_service.py lines 84-95):
`DomainName`, `ValidationMethod="DNS"`,
`IdempotencyToken=domain.replace(".", "-")[:32]`, and
`SubjectAlternativeNames=["www."+domain]` when `include_www` (the key is
omitted otherwise; the empty list stands for the omitted key).
`replace` substitutes every `.` character and `[:32]` keeps the first 32
characters. -/
structure AcmCertificateRequest where
  domainName : String
  validationMethod : String
  idempotencyToken : String
  subjectAlternativeNames : List String
deriving DecidableEq

/-- Builds the `request_certificate` kwargs from the arguments of
`request_ssl_certificate(domain, include_www)`. -/
def request_certificate_kwargs (domain : String) (include_www : Bool) : AcmCertificateRequest :=
  { domainName := domain
    validationMethod := "DNS"
    idempotencyToken := String.mk ((domain.data.map (fun c => if c = '.' then '-' else c)).take 32)
    subjectAlternativeNames := if include_www then ["www." ++ domain] else [] }

/-- The `ViewerCertificate` block of the distribution config
(aws_cdn_service.py lines 240-248): with a certificate ARN, the ACM
certificate with `SSLSupportMethod` and `MinimumProtocolVersion`; without
one, `{"CloudFrontDefaultCertificate": True}`. -/
inductive ViewerCertificate
  | acm (acmCertificateArn sslSupportMethod minimumProtocolVersion : String)
  | cloudFrontDefault
deriving DecidableEq

/-- The parts of the `DistributionConfig` dict that `create_s3_distribution`
builds (aws_cdn_service.py lines 231-303).  `CallerReference` is
`str(time.time())` in the source and is passed in here; the nested cache /
error-response blocks are constants not modelled field by field. -/
structure DistributionConfig where
  callerReference : String
  aliases : List String
  defaultRootObject : String
  originId : String
  originDomainName : String
  originProtocolPolicy : String
  viewerProtocolPolicy : String
  comment : String
  viewerCertificate : ViewerCertificate
  enabled : Bool
deriving DecidableEq

/-- Python truthiness of the `certificate_arn: Optional[str]` argument:
`if certificate_arn` is false for `None` and for the empty string. -/
def certArnTruthy : Option String → Bool
  | none => false
  | some s => !(s = "")

/-- The `DistributionConfig` built by
`create_s3_distribution(bucket_name, domain_name, certificate_arn)`
(aws_cdn_service.py lines 226-303): origin id `"S3-"+bucket`, origin domain
the s3-website endpoint of the configured region,
`ViewerProtocolPolicy = "redirect-to-https" if certificate_arn else
"allow-all"`, and the ViewerCertificate block of lines 240-248. -/
def build_distribution_config (awsRegion bucket_name domain_name : String)
    (certificate_arn : Option String) (callerReference : String) : DistributionConfig :=
  let origin_id := "S3-" ++ bucket_name
  let s3_website_endpoint := bucket_name ++ ".s3-website-" ++ awsRegion ++ ".amazonaws.com"
  { callerReference := callerReference
    aliases := [domain_name]
    defaultRootObject := "index.html"
    originId := origin_id
    originDomainName := s3_website_endpoint
    originProtocolPolicy := "http-only"
    viewerProtocolPolicy := if certArnTruthy certificate_arn then "redirect-to-https" else "allow-all"
    comment := "Created by AI-Website for " ++ domain_name
    viewerCertificate :=
      match certificate_arn, certArnTruthy certificate_arn with
      | some arn, true => .acm arn "sni-only" "TLSv1.2_2021"
      | _, _ => .cloudFrontDefault
    enabled := true }

/-
========================================================================
Route53 hosted zones — src/src/services/aws_domain_service.py
========================================================================
-/

/-- A Route53 hosted zone as `list_hosted_zones_by_name` returns it:
`Name` (AWS stores names with a trailing dot) and `Id`. -/
structure HostedZone where
  name : String
  id : String
deriving DecidableEq

/-- Python `s.rstrip(".")`: removes every trailing `.` character. -/
def rstripDot (s : String) : String :=
  String.mk ((s.data.reverse.dropWhile (fun c => c = '.')).reverse)

/-- The exact-match test of `_get_or_create_hosted_zone`
(aws_domain_service.py line 245):
`zone["Name"].rstrip(".") == domain.rstrip(".")`. -/
def zoneMatches (domain : String) (z : HostedZone) : Bool :=
  rstripDot z.name = rstripDot domain

/-- Whether the last character of the string is a dot. -/
def endsWithDot (s : String) : Bool :=
  match s.data.getLast? with
  | some c => c = '.'
  | none => false

/-- The name under which Route53 stores a zone created with
`create_hosted_zone(Name=domain, ...)`: AWS normalizes to the fully
qualified form with a trailing dot. -/
def awsZoneName (domain : String) : String :=
  if endsWithDot domain then domain else domain ++ "."

/-- The Route53 zone store: existing zones plus a counter from which the
provider derives fresh zone identifiers. -/
structure Route53State where
  zones : List HostedZone
  nextId : Nat
deriving DecidableEq

/-- A fresh provider-generated hosted-zone identifier. -/
def freshZoneId (st : Route53State) : String :=
  "/hostedzone/Z" ++ toString st.nextId

/-- `_get_or_create_hosted_zone(domain)` (aws_domain_service.py lines
234-261) over an explicit zone store: list the zones, return the id of the
first whose name matches the domain after `rstrip(".")` on both sides;
otherwise create a zone for the domain and return its id.  The provider is
idealized as always succeeding; the failure path is
`get_or_create_hosted_zone_remote` below. -/
def get_or_create_hosted_zone (st : Route53State) (domain : String) : String × Route53State :=
  match st.zones.find? (zoneMatches domain) with
  | some z => (z.id, st)
  | none =>
    let z : HostedZone := { name := awsZoneName domain, id := freshZoneId st }
    (z.id, { zones := st.zones ++ [z], nextId := st.nextId + 1 })

/-- `_get_or_create_hosted_zone(domain)` with the two remote calls passed in
as outcomes: `zones` is what `list_hosted_zones_by_name` returned and
`createResult` what `create_hosted_zone` would produce (`.error e` for a
`ClientError` with text `e`).  Any `ClientError` — including
"zone already exists" from a duplicate-zone race — is caught by the
`except ClientError` handler (lines 259-261) and re-raised as
`AWSDomainError(f"Hosted zone operation failed: {e}")`. -/
def get_or_create_hosted_zone_remote (zones : List HostedZone)
    (createResult : Except String HostedZone) (domain : String) : Except String String :=
  match zones.find? (zoneMatches domain) with
  | some z => .ok z.id
  | none =>
    match createResult with
    | .ok z => .ok z.id
    | .error e => .error ("Hosted zone operation failed: " ++ e)

/-
========================================================================
Python keyword-argument binding of the registration step —
src/src/services/deployment_orchestrator.py against
src/src/services/aws_domain_service.py and deployment_service.py
========================================================================
-/

/-- Python call binding: a call by keyword succeeds only if every keyword
names a parameter of the callee; an unknown keyword raises
`TypeError: got an unexpected keyword argument`. -/
def acceptsKeywords (params : List String) (kwargs : List String) : Bool :=
  kwargs.all (fun k => params.contains k)

/-- The parameters of `AWSDomainService.register_domain` (aws_domain_service.py
line 134): `register_domain(self, domain, contact_info, duration=1)`. -/
def register_domain_params : List String :=
  ["domain", "contact_info", "duration"]

/-- The keywords `deploy_full` passes to `register_domain`
(deployment_orchestrator.py lines 116-120). -/
def orchestrator_register_kwargs : List String :=
  ["domain", "contact_info", "duration_years"]

/-- The parameters of `DeploymentService.__init__` (deployment_service.py
line 43): `__init__(self, app_directory)`. -/
def deployment_service_init_params : List String :=
  ["app_directory"]

/-- The keywords `deploy_full` passes when constructing `DeploymentService`
(deployment_orchestrator.py line 103): `DeploymentService(Path(app_dir),
config=self.config)` — one positional argument plus the keyword `config`. -/
def orchestrator_deployment_service_kwargs : List String :=
  ["config"]

/-
========================================================================
Pipeline orchestrator — src/src/services/deployment_orchestrator.py
========================================================================
-/

/-- Registrar contact record (`AWSContactInfo`): passed through opaquely by
the orchestrator, modelled as an association list of fields. -/
def ContactInfo : Type := List (String × String)

instance : DecidableEq ContactInfo := by
  unfold ContactInfo
  infer_instance

/-- A DNS validation record as `get_acm_validation_records` returns it:
`{"name": …, "value": …}`. -/
structure ValidationRecord where
  name : String
  value : String
deriving DecidableEq

/-- The dict `create_s3_distribution` returns (aws_cdn_service.py lines
312-317). -/
structure DistInfo where
  distribution_id : String
  distribution_domain : String
  status : String
  arn : String
deriving DecidableEq

/-- The dict `register_domain` returns (aws_domain_service.py lines 165-170);
only `operation_id` is read by the orchestrator. -/
structure RegResult where
  operation_id : String
deriving DecidableEq

/-- The arguments `deploy_full` takes (deployment_orchestrator.py lines
55-66), with the defaults of the source.  `app_dir` is not modelled: it only
feeds the `DeploymentService` constructor, an external collaborator. -/
structure PipelineRequest where
  bucket_name : String
  domain : String
  install : Bool := false
  build_command : String := "pnpm build"
  contact_info : Option ContactInfo := none
  duration_years : Nat := 1
  cert_timeout_minutes : Nat := 30
  distribution_timeout_minutes : Nat := 30

/-- The collaborator methods `deploy_full` invokes, with the outcome each
call would produce for given arguments.  A `.error m` outcome stands for the
collaborator raising an exception whose `str()` is `m`. -/
structure PipelineEnv where
  install_dependencies : Except String Unit
  register_domain : String → ContactInfo → Nat → Except String RegResult
  run_build : String → Except String Unit
  deploy_s3 : String → Bool → Except String Unit
  request_ssl_certificate : String → Bool → Except String String
  get_acm_validation_records : String → Except String (List ValidationRecord)
  add_acm_dns_records : String → List ValidationRecord → Except String Unit
  wait_for_certificate : String → Nat → Except String Unit
  create_s3_distribution : String → String → String → Except String DistInfo
  setup_cloudfront_dns : String → String → Except String Unit
  wait_for_distribution : String → Nat → Except String Unit

/-- One collaborator invocation, with the arguments the orchestrator passed. -/
inductive Call
  | install_dependencies
  | register_domain (domain : String) (contact : ContactInfo) (durationYears : Nat)
  | run_build (buildCommand : String)
  | deploy_s3 (bucket : String) (makePublic : Bool)
  | request_ssl_certificate (domain : String) (includeWww : Bool)
  | get_acm_validation_records (certArn : String)
  | add_acm_dns_records (domain : String) (records : List ValidationRecord)
  | wait_for_certificate (certArn : String) (timeoutMinutes : Nat)
  | create_s3_distribution (bucket : String) (domain : String) (certArn : String)
  | setup_cloudfront_dns (domain : String) (distDomain : String)
  | wait_for_distribution (distId : String) (timeoutMinutes : Nat)
deriving DecidableEq

/-- The step a call belongs to, forgetting its arguments. -/
inductive StepKind
  | install
  | register
  | build
  | uploadS3
  | requestCert
  | getValidationRecords
  | writeValidationDns
  | waitCert
  | createDistribution
  | setupDns
  | waitDistribution
deriving DecidableEq

/-- The step of a call. -/
def callKind : Call → StepKind
  | .install_dependencies => .install
  | .register_domain _ _ _ => .register
  | .run_build _ => .build
  | .deploy_s3 _ _ => .uploadS3
  | .request_ssl_certificate _ _ => .requestCert
  | .get_acm_validation_records _ => .getValidationRecords
  | .add_acm_dns_records _ _ => .writeValidationDns
  | .wait_for_certificate _ _ => .waitCert
  | .create_s3_distribution _ _ _ => .createDistribution
  | .setup_cloudfront_dns _ _ => .setupDns
  | .wait_for_distribution _ _ => .waitDistribution

/-- `raise OrchestratorError(str(exc))` (deployment_orchestrator.py line 188):
the orchestrator-level error, carrying `str()` of the original exception. -/
structure OrchestratorError where
  message : String
deriving DecidableEq

/-- The dict `deploy_full` returns on success (deployment_orchestrator.py
lines 179-184). -/
structure PipelineResult where
  url : String
  distribution_id : String
  distribution_domain : String
  certificate_arn : String
deriving DecidableEq

/-- Outcome of a `deploy_full` run plus the trace of collaborator calls it
made, in order. -/
def PipeOut : Type := Except OrchestratorError PipelineResult × List Call

/-- One pipeline statement inside the `try` block: record the call, and on an
exception abort with the wrapped `OrchestratorError` (no later statement
runs); on success continue with the returned value. -/
def bindStep {α : Type} (out : Except String α) (c : Call) (tr : List Call)
    (k : α → List Call → PipeOut) : PipeOut :=
  match out with
  | .error m => (.error ⟨m⟩, tr ++ [c])
  | .ok a => k a (tr ++ [c])

/-- Steps 3-10 of `deploy_full` (deployment_orchestrator.py lines 126-184):
build, upload to S3, request the certificate, fetch and write the validation
records, wait for issuance, create the distribution, point DNS at it, wait
for deployment, and return the result dict with
`url = "https://" + domain`. -/
def deploy_steps_from_build (env : PipelineEnv) (r : PipelineRequest) (tr : List Call) : PipeOut :=
  bindStep (env.run_build r.build_command) (.run_build r.build_command) tr fun _ tr =>
  bindStep (env.deploy_s3 r.bucket_name true) (.deploy_s3 r.bucket_name true) tr fun _ tr =>
  bindStep (env.request_ssl_certificate r.domain true)
    (.request_ssl_certificate r.domain true) tr fun cert_arn tr =>
  bindStep (env.get_acm_validation_records cert_arn)
    (.get_acm_validation_records cert_arn) tr fun records tr =>
  bindStep (env.add_acm_dns_records r.domain records)
    (.add_acm_dns_records r.domain records) tr fun _ tr =>
  bindStep (env.wait_for_certificate cert_arn r.cert_timeout_minutes)
    (.wait_for_certificate cert_arn r.cert_timeout_minutes) tr fun _ tr =>
  bindStep (env.create_s3_distribution r.bucket_name r.domain cert_arn)
    (.create_s3_distribution r.bucket_name r.domain cert_arn) tr fun dist tr =>
  bindStep (env.setup_cloudfront_dns r.domain dist.distribution_domain)
    (.setup_cloudfront_dns r.domain dist.distribution_domain) tr fun _ tr =>
  bindStep (env.wait_for_distribution dist.distribution_id r.distribution_timeout_minutes)
    (.wait_for_distribution dist.distribution_id r.distribution_timeout_minutes) tr fun _ tr =>
  (.ok { url := "https://" ++ r.domain
         distribution_id := dist.distribution_id
         distribution_domain := dist.distribution_domain
         certificate_arn := cert_arn }, tr)

/-- Step 2 of `deploy_full` (lines 113-124): when a contact record is
present, register the domain (passing the domain, the contact record and the
registration duration) and continue; otherwise skip to the build. -/
def deploy_steps_from_register (env : PipelineEnv) (r : PipelineRequest) (tr : List Call) : PipeOut :=
  match r.contact_info with
  | some ci =>
    bindStep (env.register_domain r.domain ci r.duration_years)
      (.register_domain r.domain ci r.duration_years) tr fun _ tr =>
    deploy_steps_from_build env r tr
  | none => deploy_steps_from_build env r tr

/-- `deploy_full` (deployment_orchestrator.py lines 55-188) with the
collaborator calls supplied by `env`: step 1 installs dependencies when
`install` is set, then steps 2-10 as above.  Every step runs inside the
`try`; the first exception aborts the run as
`OrchestratorError(str(exc))`. -/
def deploy_full (env : PipelineEnv) (r : PipelineRequest) : PipeOut :=
  if r.install then
    bindStep env.install_dependencies .install_dependencies [] fun _ tr =>
    deploy_steps_from_register env r tr
  else deploy_steps_from_register env r []

/-- The error text, if any, the environment assigns to a call: `some m` when
invoking that collaborator with those arguments raises an exception with
text `m`, `none` when it succeeds. -/
def errOf {α : Type} : Except String α → Option String
  | .error m => some m
  | .ok _ => none

/-- The outcome of a recorded call, evaluated in the environment. -/
def callErr (env : PipelineEnv) : Call → Option String
  | .install_dependencies => errOf env.install_dependencies
  | .register_domain d ci y => errOf (env.register_domain d ci y)
  | .run_build cmd => errOf (env.run_build cmd)
  | .deploy_s3 b p => errOf (env.deploy_s3 b p)
  | .request_ssl_certificate d w => errOf (env.request_ssl_certificate d w)
  | .get_acm_validation_records a => errOf (env.get_acm_validation_records a)
  | .add_acm_dns_records d recs => errOf (env.add_acm_dns_records d recs)
  | .wait_for_certificate a t => errOf (env.wait_for_certificate a t)
  | .create_s3_distribution b d a => errOf (env.create_s3_distribution b d a)
  | .setup_cloudfront_dns d dd => errOf (env.setup_cloudfront_dns d dd)
  | .wait_for_distribution i t => errOf (env.wait_for_distribution i t)

/-- The steps of the always-run tail of the pipeline (steps 3-10), in order. -/
def coreKinds : List StepKind :=
  [.build, .uploadS3, .requestCert, .getValidationRecords, .writeValidationDns,
   .waitCert, .createDistribution, .setupDns, .waitDistribution]

/-- The steps a request enables, in pipeline order: install and registration
are skipped unless requested; the rest always run. -/
def enabledKinds (install hasContact : Bool) : List StepKind :=
  (if install then [.install] else []) ++
  (if hasContact then [.register] else []) ++ coreKinds

/-- What a pipeline segment guarantees: it appends some calls `Δ` to the
trace, their steps follow `kinds` in order (a prefix, since an abort stops
early); on success every appended call succeeded and every step of `kinds`
ran; on an error the appended calls are zero or more successes followed by
exactly one failing call whose exception text is the message of the single
wrapped `OrchestratorError`. -/
def SegSpec (env : PipelineEnv) (kinds : List StepKind) (out : PipeOut) (tr : List Call) : Prop :=
  ∃ Δ, out.2 = tr ++ Δ ∧ Δ.map callKind <+: kinds ∧
    ((∃ p, out.1 = Except.ok p) → (∀ c ∈ Δ, callErr env c = none) ∧ Δ.map callKind = kinds) ∧
    (∀ e, out.1 = Except.error e →
      ∃ Δ₀ c, Δ = Δ₀ ++ [c] ∧ callErr env c = some e.message ∧
        ∀ c₀ ∈ Δ₀, callErr env c₀ = none)

/-
========================================================================
Concrete instances used by the witnesses (values from the test fixtures of
src/tests/test_deployment_pipeline.py)
========================================================================
-/

/-- A concrete registrar contact record. -/
def contact0 : ContactInfo := [("FirstName", "Jane"), ("LastName", "Doe")]

/-- A minimal pipeline request: bucket and domain only, defaults elsewhere. -/
def req0 : PipelineRequest :=
  { bucket_name := "my-website-bucket", domain := "my-app.com" }

/-- A request enabling the optional steps: install and registration. -/
def req_full : PipelineRequest :=
  { bucket_name := "my-website-bucket", domain := "my-app.com",
    install := true, contact_info := some contact0 }

/-- A concrete validation record. -/
def vrec0 : ValidationRecord :=
  { name := "_abc.my-app.com.", value := "_xyz.acm-validations.aws." }

/-- A concrete distribution, as `create_s3_distribution` would return it. -/
def dist0 : DistInfo :=
  { distribution_id := "E1ABCXYZ", distribution_domain := "d123.cloudfront.net",
    status := "InProgress", arn := "arn:aws:cloudfront::123:distribution/E1" }

/-- An environment in which every collaborator call succeeds. -/
def env_all_ok : PipelineEnv :=
  { install_dependencies := .ok ()
    register_domain := fun _ _ _ => .ok { operation_id := "op-123-abc" }
    run_build := fun _ => .ok ()
    deploy_s3 := fun _ _ => .ok ()
    request_ssl_certificate := fun _ _ =>
      .ok "arn:aws:acm:us-east-1:123456789012:certificate/abc-123"
    get_acm_validation_records := fun _ => .ok [vrec0]
    add_acm_dns_records := fun _ _ => .ok ()
    wait_for_certificate := fun _ _ => .ok ()
    create_s3_distribution := fun _ _ _ => .ok dist0
    setup_cloudfront_dns := fun _ _ => .ok ()
    wait_for_distribution := fun _ _ => .ok () }

/-- The all-ok environment except that the build raises. -/
def env_build_fails : PipelineEnv :=
  { env_all_ok with run_build := fun _ => .error "Build failed!" }

/-
========================================================================
Theorems
========================================================================
-/

/-- `rstrip(".")` removes an appended trailing dot. -/
theorem rstripDot_append_dot (s : String) : rstripDot (s ++ ".") = rstripDot s := by
  unfold rstripDot
  have h : (s ++ ".").data = s.data ++ ['.'] := by
    simp [String.data_append]
  rw [h]
  simp [List.dropWhile]

/-- The stored name of a created zone strips to the domain itself. -/
theorem rstripDot_awsZoneName (d : String) : rstripDot (awsZoneName d) = rstripDot d := by
  unfold awsZoneName
  by_cases h : endsWithDot d
  · simp [h]
  · simp [h, rstripDot_append_dot]

/-- A freshly created zone matches its own domain in the lookup. -/
theorem zoneMatches_awsZoneName (d zid : String) :
    zoneMatches d { name := awsZoneName d, id := zid } = true := by
  simp [zoneMatches, rstripDot_awsZoneName]

/-- The wait loop returns success iff some permitted poll observes `ISSUED`
and every earlier poll observed `PENDING_VALIDATION`. -/
theorem acmWaitFrom_issued_iff (status : Nat → CertStatus) :
    ∀ (n k : Nat), acmWaitFrom status n k = .issued ↔
      ∃ i, i < n ∧ status (k + i) = .issued ∧
        ∀ j, j < i → status (k + j) = .pendingValidation := by
  intro n
  induction n with
  | zero => intro k; simp [acmWaitFrom]
  | succ n ih =>
    intro k
    cases h : status k
    case issued =>
      refine iff_of_true (by simp [acmWaitFrom, h]) ?_
      exact ⟨0, Nat.succ_pos n, by simpa using h, fun j hj => absurd hj (Nat.not_lt_zero j)⟩
    case pendingValidation =>
      have hl : acmWaitFrom status (n + 1) k = acmWaitFrom status n (k + 1) := by
        simp [acmWaitFrom, h, acm_terminal_states]
      rw [hl, ih (k + 1)]
      constructor
      · rintro ⟨i, hi, hIss, hPrev⟩
        refine ⟨i + 1, by omega, ?_, ?_⟩
        · have e : k + (i + 1) = k + 1 + i := by omega
          rw [e]; exact hIss
        · intro j hj
          cases j with
          | zero => simpa using h
          | succ j =>
            have e : k + (j + 1) = k + 1 + j := by omega
            rw [e]; exact hPrev j (by omega)
      · rintro ⟨i, hi, hIss, hPrev⟩
        cases i with
        | zero =>
          exfalso
          have h0 : status k = .issued := by simpa using hIss
          rw [h] at h0; exact CertStatus.noConfusion h0
        | succ i =>
          refine ⟨i, by omega, ?_, ?_⟩
          · have e : k + 1 + i = k + (i + 1) := by omega
            rw [e]; exact hIss
          · intro j hj
            have e : k + 1 + j = k + (j + 1) := by omega
            rw [e]; exact hPrev (j + 1) (by omega)
    all_goals
      have hl : acmWaitFrom status (n + 1) k = .terminalState (status k) := by
        simp [acmWaitFrom, h, acm_terminal_states]
      refine iff_of_false (by rw [hl, h]; intro hc; exact CertWaitResult.noConfusion hc) ?_
      rintro ⟨i, hi, hIss, hPrev⟩
      cases i with
      | zero =>
        have h0 : status k = .issued := by simpa using hIss
        rw [h] at h0; exact CertStatus.noConfusion h0
      | succ i =>
        have h0 : status k = .pendingValidation := by simpa using hPrev 0 (Nat.succ_pos i)
        rw [h] at h0; exact CertStatus.noConfusion h0

/-- The wait loop raises the terminal-state error for `s` iff `s` is one of
FAILED/REVOKED/EXPIRED, some permitted poll observes `s`, and every earlier
poll observed `PENDING_VALIDATION`. -/
theorem acmWaitFrom_terminal_iff (status : Nat → CertStatus) :
    ∀ (n k : Nat) (s : CertStatus), acmWaitFrom status n k = .terminalState s ↔
      s ∈ acm_terminal_states ∧ ∃ i, i < n ∧ status (k + i) = s ∧
        ∀ j, j < i → status (k + j) = .pendingValidation := by
  intro n
  induction n with
  | zero => intro k s; simp [acmWaitFrom]
  | succ n ih =>
    intro k s
    cases h : status k
    case issued =>
      have hl : acmWaitFrom status (n + 1) k = .issued := by simp [acmWaitFrom, h]
      refine iff_of_false (by rw [hl]; intro hc; exact CertWaitResult.noConfusion hc) ?_
      rintro ⟨hs, i, hi, hEq, hPrev⟩
      cases i with
      | zero =>
        have h0 : status k = s := by simpa using hEq
        rw [h] at h0
        cases h0
        simp [acm_terminal_states] at hs
      | succ i =>
        have h0 : status k = .pendingValidation := by simpa using hPrev 0 (Nat.succ_pos i)
        rw [h] at h0; exact CertStatus.noConfusion h0
    case pendingValidation =>
      have hl : acmWaitFrom status (n + 1) k = acmWaitFrom status n (k + 1) := by
        simp [acmWaitFrom, h, acm_terminal_states]
      rw [hl, ih (k + 1) s]
      constructor
      · rintro ⟨hs, i, hi, hEq, hPrev⟩
        refine ⟨hs, i + 1, by omega, ?_, ?_⟩
        · have e : k + (i + 1) = k + 1 + i := by omega
          rw [e]; exact hEq
        · intro j hj
          cases j with
          | zero => simpa using h
          | succ j =>
            have e : k + (j + 1) = k + 1 + j := by omega
            rw [e]; exact hPrev j (by omega)
      · rintro ⟨hs, i, hi, hEq, hPrev⟩
        cases i with
        | zero =>
          exfalso
          have h0 : status k = s := by simpa using hEq
          rw [h] at h0
          cases h0
          simp [acm_terminal_states] at hs
        | succ i =>
          refine ⟨hs, i, by omega, ?_, ?_⟩
          · have e : k + 1 + i = k + (i + 1) := by omega
            rw [e]; exact hEq
          · intro j hj
            have e : k + 1 + j = k + (j + 1) := by omega
            rw [e]; exact hPrev (j + 1) (by omega)
    all_goals
      have hl : acmWaitFrom status (n + 1) k = .terminalState (status k) := by
        simp [acmWaitFrom, h, acm_terminal_states]
      rw [hl, h]
      constructor
      · intro hc
        cases hc
        exact ⟨by simp [acm_terminal_states], 0, Nat.succ_pos n, by simpa using h,
          fun j hj => absurd hj (Nat.not_lt_zero j)⟩
      · rintro ⟨hs, i, hi, hEq, hPrev⟩
        cases i with
        | zero =>
          have h0 : status k = s := by simpa using hEq
          rw [h] at h0
          rw [h0]
        | succ i =>
          have h0 : status k = .pendingValidation := by simpa using hPrev 0 (Nat.succ_pos i)
          rw [h] at h0; exact CertStatus.noConfusion h0

/-- The wait loop raises the timeout error iff every permitted poll observed
`PENDING_VALIDATION` (in particular, vacuously, when no poll is permitted). -/
theorem acmWaitFrom_timedOut_iff (status : Nat → CertStatus) :
    ∀ (n k : Nat), acmWaitFrom status n k = .timedOut ↔
      ∀ i, i < n → status (k + i) = .pendingValidation := by
  intro n
  induction n with
  | zero => intro k; simp [acmWaitFrom]
  | succ n ih =>
    intro k
    cases h : status k
    case issued =>
      have hl : acmWaitFrom status (n + 1) k = .issued := by simp [acmWaitFrom, h]
      refine iff_of_false (by rw [hl]; intro hc; exact CertWaitResult.noConfusion hc) ?_
      intro hAll
      have h0 : status k = .pendingValidation := by simpa using hAll 0 (Nat.succ_pos n)
      rw [h] at h0; exact CertStatus.noConfusion h0
    case pendingValidation =>
      have hl : acmWaitFrom status (n + 1) k = acmWaitFrom status n (k + 1) := by
        simp [acmWaitFrom, h, acm_terminal_states]
      rw [hl, ih (k + 1)]
      constructor
      · intro hAll i hi
        cases i with
        | zero => simpa using h
        | succ i =>
          have e : k + (i + 1) = k + 1 + i := by omega
          rw [e]; exact hAll i (by omega)
      · intro hAll i hi
        have e : k + 1 + i = k + (i + 1) := by omega
        rw [e]; exact hAll (i + 1) (by omega)
    all_goals
      have hl : acmWaitFrom status (n + 1) k = .terminalState (status k) := by
        simp [acmWaitFrom, h, acm_terminal_states]
      refine iff_of_false (by rw [hl, h]; intro hc; exact CertWaitResult.noConfusion hc) ?_
      intro hAll
      have h0 : status k = .pendingValidation := by simpa using hAll 0 (Nat.succ_pos n)
      rw [h] at h0; exact CertStatus.noConfusion h0

/-- C2 counterexample: with `timeout_minutes = 0` the deadline precedes the
first poll, so `wait_for_certificate` raises the timeout error even for a
certificate whose status is already `ISSUED` — although the status is never
`PENDING_VALIDATION`, contradicting the "raises timeout iff still
PENDING_VALIDATION" claim (and the claimed trichotomy as a whole). -/
theorem C2_counterexample :
    wait_for_certificate (fun _ => CertStatus.issued) 0 = CertWaitResult.timedOut ∧
    ¬ claimC2 (fun _ => CertStatus.issued) 0 := by
  refine ⟨rfl, fun h => ?_⟩
  have h3 := h.2.2.mp rfl
  exact CertStatus.noConfusion h3

/-- C2 amended: the iff-characterization of `wait_for_certificate` holds
with "status" read as the statuses its polls observe (one poll every 30 s,
strictly before the `60 * timeout_minutes` deadline — `2 * timeout_minutes`
polls in all): it returns successfully iff some poll observes `ISSUED` with
all earlier polls `PENDING_VALIDATION`; it raises the terminal-state error
for `s` iff `s ∈ {FAILED, REVOKED, EXPIRED}` and some poll observes `s`
with all earlier polls `PENDING_VALIDATION`; and it raises the timeout
error iff every permitted poll observes `PENDING_VALIDATION` — so with
`timeout_minutes = 0` no poll occurs and the timeout error is raised
regardless of the actual certificate status. -/
theorem C2_wait_for_certificate_characterization :
    ∀ (status : Nat → CertStatus) (m : Nat),
      (wait_for_certificate status m = .issued ↔
        ∃ k, k < 2 * m ∧ status k = .issued ∧
          ∀ j, j < k → status j = .pendingValidation) ∧
      (∀ s, wait_for_certificate status m = .terminalState s ↔
        (s ∈ acm_terminal_states ∧ ∃ k, k < 2 * m ∧ status k = s ∧
          ∀ j, j < k → status j = .pendingValidation)) ∧
      (wait_for_certificate status m = .timedOut ↔
        ∀ k, k < 2 * m → status k = .pendingValidation) := by
  intro status m
  refine ⟨?_, fun s => ?_, ?_⟩
  · simpa [wait_for_certificate] using acmWaitFrom_issued_iff status (2 * m) 0
  · simpa [wait_for_certificate] using acmWaitFrom_terminal_iff status (2 * m) 0 s
  · simpa [wait_for_certificate] using acmWaitFrom_timedOut_iff status (2 * m) 0

/-- C1: the claim says `deploy_full` with a contact record invokes
`register_domain` with the domain, contact record and registration duration,
and when the call succeeds the pipeline proceeds to the build step.  In the
source the invocation itself is broken: `deploy_full` passes the keyword
`duration_years` (deployment_orchestrator.py line 119) but the parameter of
`AWSDomainService.register_domain` is named `duration`
(aws_domain_service.py line 134), so Python rejects the call with a
`TypeError` before `register_domain` runs — and `deploy_full` also passes
`config=` to `DeploymentService`, whose `__init__` takes only
`app_directory`.  This theorem evaluates the keyword binding of both calls
at the failing input. -/
theorem C1_register_domain_keyword_mismatch :
    acceptsKeywords register_domain_params orchestrator_register_kwargs = false ∧
    register_domain_params.contains "duration_years" = false ∧
    acceptsKeywords deployment_service_init_params orchestrator_deployment_service_kwargs
      = false := by
  decide

/-- C4 counterexample: the claim says a RateLimit (HTTP 429) error is
retried uniformly across the provider operations, but `suggest_domains`
does not list `RateLimitError` among its retryable exception types: the
error is classified terminal there and propagates after exactly one
invocation. -/
theorem C4_counterexample :
    suggest_domains_retryable GDError.rateLimit = false ∧
    tenacity_retry suggest_domains_retryable suggest_domains_max_attempts
        (fun _ => (Except.error GDError.rateLimit : Except GDError Unit))
      = (Except.error GDError.rateLimit, 1) ∧
    ¬ claimC4 := by
  refine ⟨rfl, rfl, fun h => ?_⟩
  have h2 := h.2.1
  simp [suggest_domains_retryable] at h2

/-- C4 amended: only `check_availability` classifies RateLimit as transient
and retries it up to its attempt ceiling; every other GoDaddy operation
(suggestions, schema, validate, purchase, list, details) retries only
Network and ServerError, and a RateLimit error propagates on its first
occurrence there. -/
theorem C4_rate_limit_only_check_availability :
    check_availability_retryable GDError.rateLimit = true ∧
    suggest_domains_retryable GDError.rateLimit = false ∧
    get_domain_schema_retryable GDError.rateLimit = false ∧
    validate_purchase_retryable GDError.rateLimit = false ∧
    purchase_domain_retryable GDError.rateLimit = false ∧
    get_domains_retryable GDError.rateLimit = false ∧
    get_domain_details_retryable GDError.rateLimit = false ∧
    tenacity_retry check_availability_retryable check_availability_max_attempts
        (fun _ => (Except.error GDError.rateLimit : Except GDError Unit))
      = (Except.error GDError.rateLimit, 3) ∧
    tenacity_retry suggest_domains_retryable suggest_domains_max_attempts
        (fun _ => (Except.error GDError.rateLimit : Except GDError Unit))
      = (Except.error GDError.rateLimit, 1) ∧
    tenacity_retry purchase_domain_retryable purchase_domain_max_attempts
        (fun _ => (Except.error GDError.rateLimit : Except GDError Unit))
      = (Except.error GDError.rateLimit, 1) :=
  ⟨rfl, rfl, rfl, rfl, rfl, rfl, rfl, rfl, rfl, rfl⟩

/-- Under the retry policy, if attempts starting at `i` fail with retryable
errors until attempt `N` succeeds, and the fuel window covers `N`, the
wrapped call returns the success value after exactly `N` invocations. -/
theorem tenacityGo_first_success {α : Type} (retryable : GDError → Bool)
    (op : Nat → Except GDError α) :
    ∀ (fuel i N : Nat) (v : α), i ≤ N → N < i + fuel →
      (∀ j, i ≤ j → j < N → ∃ e, op j = .error e ∧ retryable e = true) →
      op N = .ok v →
      tenacityGo retryable op fuel i = (.ok v, N) := by
  intro fuel
  induction fuel using Nat.strong_induction_on with
  | _ fuel ih =>
    intro i N v h1 h2 hPrev hOk
    obtain _ | _ | fuel := fuel
    · omega
    · have hNi : N = i := by omega
      subst hNi
      simp [tenacityGo, hOk]
    · by_cases hiN : i = N
      · subst hiN
        simp [tenacityGo, hOk]
      · obtain ⟨e, he, hr⟩ := hPrev i le_rfl (by omega)
        have : tenacityGo retryable op (fuel + 2) i
            = tenacityGo retryable op (fuel + 1) (i + 1) := by
          simp [tenacityGo, he, hr]
        rw [this]
        exact ih (fuel + 1) (by omega) (i + 1) N v (by omega) (by omega)
          (fun j hj1 hj2 => hPrev j (by omega) hj2) hOk

/-- C5: retry-policy counting.  (1) An operation failing `N - 1` times with
retryable (transient) errors and then succeeding, with `N` within the
attempt ceiling, returns the success value after exactly `N` invocations.
(2) An operation whose first attempt fails with a non-retryable (terminal)
error is invoked exactly once and the error propagates.  (3) The purchase
ceiling (`stop_after_attempt(2)`) is strictly smaller than the ceiling of
each read operation (`stop_after_attempt(3)`). -/
theorem C5_retry_counting :
    (∀ (α : Type) (retryable : GDError → Bool) (maxAttempts : Nat)
        (op : Nat → Except GDError α) (N : Nat) (v : α),
      1 ≤ N → N ≤ maxAttempts →
      (∀ j, 1 ≤ j → j < N → ∃ e, op j = .error e ∧ retryable e = true) →
      op N = .ok v →
      tenacity_retry retryable maxAttempts op = (.ok v, N)) ∧
    (∀ (α : Type) (retryable : GDError → Bool) (maxAttempts : Nat)
        (op : Nat → Except GDError α) (e : GDError),
      op 1 = .error e → retryable e = false →
      tenacity_retry retryable maxAttempts op = (.error e, 1)) ∧
    (purchase_domain_max_attempts < check_availability_max_attempts ∧
     purchase_domain_max_attempts < suggest_domains_max_attempts ∧
     purchase_domain_max_attempts < get_domains_max_attempts ∧
     purchase_domain_max_attempts < get_domain_details_max_attempts) := by
  refine ⟨?_, ?_, by decide⟩
  · intro α retryable maxAttempts op N v h1 h2 hPrev hOk
    exact tenacityGo_first_success retryable op maxAttempts 1 N v h1 (by omega) hPrev hOk
  · intro α retryable maxAttempts op e hop hr
    obtain _ | _ | m := maxAttempts
    · simpa [tenacity_retry, tenacityGo] using hop
    · simpa [tenacity_retry, tenacityGo] using hop
    · simp [tenacity_retry, tenacityGo, hop, hr]

/-- C5 witness: `check_availability` (ceiling 3) on an operation failing
twice with NetworkError and succeeding on the third attempt returns the
value after exactly 3 invocations. -/
theorem C5_witness :
    tenacity_retry check_availability_retryable check_availability_max_attempts
        (fun i => if i < 3 then (Except.error GDError.network : Except GDError Nat)
                  else Except.ok 42)
      = (Except.ok 42, 3) :=
  C5_retry_counting.1 Nat check_availability_retryable check_availability_max_attempts
    _ 3 42 (by decide) (by decide)
    (fun j _ hj2 => ⟨GDError.network, by simp [hj2], rfl⟩)
    (by simp)

/-- C6: `_get_or_create_hosted_zone` is idempotent: a second call with the
same domain returns the identifier of the zone the first call found or
created, and does not create another zone (the zone store is unchanged).
The lookup is an exact match after stripping trailing dots from both sides,
so a zone stored with a trailing dot matches the bare domain and the other
way round. -/
theorem C6_hosted_zone_idempotent :
    ∀ (st : Route53State) (d : String),
      (get_or_create_hosted_zone (get_or_create_hosted_zone st d).2 d).1
        = (get_or_create_hosted_zone st d).1 ∧
      (get_or_create_hosted_zone (get_or_create_hosted_zone st d).2 d).2
        = (get_or_create_hosted_zone st d).2 ∧
      (∀ zid, zoneMatches d { name := d ++ ".", id := zid } = true) ∧
      (∀ zid, zoneMatches (d ++ ".") { name := d, id := zid } = true) := by
  intro st d
  refine ⟨?_, ?_, ?_, ?_⟩ <;>
    first
    | (cases h : st.zones.find? (zoneMatches d) with
       | some z => simp [get_or_create_hosted_zone, h]
       | none =>
         simp [get_or_create_hosted_zone, h, List.find?_append, List.find?,
           zoneMatches_awsZoneName])
    | (intro zid; simp [zoneMatches, rstripDot_append_dot])

/-- C7 counterexample: when the lookup finds no zone and `create_hosted_zone`
fails with an already-exists `ClientError` (duplicate-zone race),
`_get_or_create_hosted_zone` does not return the existing identifier: it
raises `AWSDomainError("Hosted zone operation failed: …")`. -/
theorem C7_counterexample :
    get_or_create_hosted_zone_remote [] (.error "HostedZoneAlreadyExists") "my-app.com"
      = .error "Hosted zone operation failed: HostedZoneAlreadyExists" :=
  rfl

/-- C7 amended: whenever the exact-match lookup finds nothing and the create
call fails — for any provider error, including "already exists" from a
duplicate-zone race — `_get_or_create_hosted_zone` raises `AWSDomainError`
wrapping the provider error instead of treating it as success. -/
theorem C7_create_failure_raises :
    ∀ (zones : List HostedZone) (e d : String),
      zones.find? (zoneMatches d) = none →
      get_or_create_hosted_zone_remote zones (.error e) d
        = .error ("Hosted zone operation failed: " ++ e) := by
  intro zones e d h
  simp [get_or_create_hosted_zone_remote, h]

/-- C7 witness: a store holding only a zone for a different domain, create
failing with an already-exists error. -/
theorem C7_witness :
    get_or_create_hosted_zone_remote [{ name := "other.com.", id := "/hostedzone/Z1" }]
        (.error "HostedZoneAlreadyExists") "my-app.com"
      = .error ("Hosted zone operation failed: " ++ "HostedZoneAlreadyExists") :=
  C7_create_failure_raises _ "HostedZoneAlreadyExists" "my-app.com" rfl

/-- C8: `create_s3_distribution` with a certificate ARN always sets the
redirect-to-https viewer protocol policy, binds that ARN in the viewer
certificate and pins the minimum TLS protocol version to `TLSv1.2_2021`;
without a certificate it always sets allow-all and uses the CloudFront
default certificate.  (An ARN is a nonempty identifier; the source tests
`if certificate_arn`, Python truthiness, so the empty string behaves like
`None`.) -/
theorem C8_distribution_viewer_policy :
    ∀ (awsRegion bucket domain callerRef : String),
      (∀ arn : String, arn ≠ "" →
        (build_distribution_config awsRegion bucket domain (some arn) callerRef).viewerProtocolPolicy
          = "redirect-to-https" ∧
        (build_distribution_config awsRegion bucket domain (some arn) callerRef).viewerCertificate
          = .acm arn "sni-only" "TLSv1.2_2021") ∧
      ((build_distribution_config awsRegion bucket domain none callerRef).viewerProtocolPolicy
        = "allow-all" ∧
       (build_distribution_config awsRegion bucket domain none callerRef).viewerCertificate
        = .cloudFrontDefault) := by
  intro awsRegion bucket domain callerRef
  refine ⟨fun arn hne => ?_, by simp [build_distribution_config, certArnTruthy]⟩
  have ht : certArnTruthy (some arn) = true := by
    simp [certArnTruthy, hne]
  exact ⟨by simp [build_distribution_config, ht], by simp [build_distribution_config, ht]⟩

/-- The empty pipeline tail: a success outcome appends no calls. -/
theorem segSpec_done (env : PipelineEnv) (p : PipelineResult) (tr : List Call) :
    SegSpec env [] (Except.ok p, tr) tr := by
  refine ⟨[], by simp, ⟨[], rfl⟩, fun _ => ⟨by simp, rfl⟩, fun e he => ?_⟩
  simp at he

/-- Composing one pipeline statement with a verified tail: the statement is
recorded, an exception aborts with exactly its text wrapped, success defers
to the tail. -/
theorem segSpec_bindStep (env : PipelineEnv) {α : Type} (out : Except String α) (c : Call)
    (kinds : List StepKind) (k : α → List Call → PipeOut)
    (hc : callErr env c = errOf out)
    (hk : ∀ a, out = .ok a → ∀ tr, SegSpec env kinds (k a tr) tr) :
    ∀ tr, SegSpec env (callKind c :: kinds) (bindStep out c tr k) tr := by
  intro tr
  cases out with
  | error m =>
    simp only [bindStep]
    refine ⟨[c], rfl, ⟨kinds, rfl⟩, ?_, ?_⟩
    · rintro ⟨p, hp⟩
      simp at hp
    · intro e he
      simp only at he
      have he₂ : OrchestratorError.mk m = e := by
        simpa using he
      subst he₂
      refine ⟨[], c, by simp, ?_, by simp⟩
      rw [hc]
      rfl
  | ok a =>
    simp only [bindStep]
    obtain ⟨Δ, h2, hpre, hok, herr⟩ := hk a rfl (tr ++ [c])
    refine ⟨c :: Δ, ?_, ?_, ?_, ?_⟩
    · rw [h2]
      simp
    · obtain ⟨t, ht⟩ := hpre
      refine ⟨t, ?_⟩
      simpa using ht
    · intro hp
      obtain ⟨hall, hmap⟩ := hok hp
      refine ⟨?_, by simpa using hmap⟩
      intro c₀ hc₀
      rcases List.mem_cons.mp hc₀ with h₁ | h₁
      · subst h₁
        rw [hc]
        rfl
      · exact hall c₀ h₁
    · intro e he
      obtain ⟨Δ₀, c₁, hΔ, hce, hall⟩ := herr e he
      refine ⟨c :: Δ₀, c₁, by simp [hΔ], hce, ?_⟩
      intro c₀ hc₀
      rcases List.mem_cons.mp hc₀ with h₁ | h₁
      · subst h₁
        rw [hc]
        rfl
      · exact hall c₀ h₁

/-- Steps 3-10 satisfy the segment contract for the core step sequence. -/
theorem segSpec_core (env : PipelineEnv) (r : PipelineRequest) :
    ∀ tr, SegSpec env coreKinds (deploy_steps_from_build env r tr) tr := by
  intro tr
  unfold deploy_steps_from_build
  exact segSpec_bindStep env (env.run_build r.build_command)
    (.run_build r.build_command) _ _ rfl (fun _ _ tr₁ =>
    segSpec_bindStep env (env.deploy_s3 r.bucket_name true)
      (.deploy_s3 r.bucket_name true) _ _ rfl (fun _ _ tr₂ =>
      segSpec_bindStep env (env.request_ssl_certificate r.domain true)
        (.request_ssl_certificate r.domain true) _ _ rfl (fun arn _ tr₃ =>
        segSpec_bindStep env (env.get_acm_validation_records arn)
          (.get_acm_validation_records arn) _ _ rfl (fun recs _ tr₄ =>
          segSpec_bindStep env (env.add_acm_dns_records r.domain recs)
            (.add_acm_dns_records r.domain recs) _ _ rfl (fun _ _ tr₅ =>
            segSpec_bindStep env (env.wait_for_certificate arn r.cert_timeout_minutes)
              (.wait_for_certificate arn r.cert_timeout_minutes) _ _ rfl (fun _ _ tr₆ =>
              segSpec_bindStep env (env.create_s3_distribution r.bucket_name r.domain arn)
                (.create_s3_distribution r.bucket_name r.domain arn) _ _ rfl (fun dist _ tr₇ =>
                segSpec_bindStep env (env.setup_cloudfront_dns r.domain dist.distribution_domain)
                  (.setup_cloudfront_dns r.domain dist.distribution_domain) _ _ rfl (fun _ _ tr₈ =>
                  segSpec_bindStep env
                    (env.wait_for_distribution dist.distribution_id r.distribution_timeout_minutes)
                    (.wait_for_distribution dist.distribution_id r.distribution_timeout_minutes)
                    _ _ rfl (fun _ _ tr₉ =>
                    segSpec_done env _ tr₉) tr₈) tr₇) tr₆) tr₅) tr₄) tr₃) tr₂) tr₁) tr

/-- Steps 2-10 satisfy the segment contract, with the registration step
present exactly when a contact record is. -/
theorem segSpec_register (env : PipelineEnv) (r : PipelineRequest) :
    ∀ tr, SegSpec env ((if r.contact_info.isSome then [StepKind.register] else []) ++ coreKinds)
      (deploy_steps_from_register env r tr) tr := by
  intro tr
  cases hci : r.contact_info with
  | none =>
    simp only [deploy_steps_from_register, hci, Option.isSome_none, Bool.false_eq_true,
      if_false, List.nil_append]
    exact segSpec_core env r tr
  | some ci =>
    simp only [deploy_steps_from_register, hci, Option.isSome_some, if_true,
      List.singleton_append]
    exact segSpec_bindStep env (env.register_domain r.domain ci r.duration_years)
      (.register_domain r.domain ci r.duration_years) _ _ rfl
      (fun _ _ tr₁ => segSpec_core env r tr₁) tr

/-- C3: for every environment and request, the calls `deploy_full` makes
follow the enabled step order (so nothing after a failing step is invoked);
a success means every enabled step ran and succeeded; and a failure outcome
is the single wrapped `OrchestratorError` whose message is exactly the
original exception text of the last — and only — failing call, all earlier
calls having succeeded. -/
theorem C3_single_wrapped_error :
    ∀ (env : PipelineEnv) (r : PipelineRequest),
      ((deploy_full env r).2.map callKind <+: enabledKinds r.install r.contact_info.isSome) ∧
      ((∃ p, (deploy_full env r).1 = Except.ok p) →
        (∀ c ∈ (deploy_full env r).2, callErr env c = none) ∧
        (deploy_full env r).2.map callKind = enabledKinds r.install r.contact_info.isSome) ∧
      (∀ e, (deploy_full env r).1 = Except.error e →
        ∃ Δ₀ c, (deploy_full env r).2 = Δ₀ ++ [c] ∧ callErr env c = some e.message ∧
          ∀ c₀ ∈ Δ₀, callErr env c₀ = none) := by
  intro env r
  have hseg : SegSpec env (enabledKinds r.install r.contact_info.isSome)
      (deploy_full env r) [] := by
    unfold deploy_full enabledKinds
    cases hin : r.install with
    | false =>
      simp only [Bool.false_eq_true, if_false, List.nil_append]
      exact segSpec_register env r []
    | true =>
      simp only [if_true, List.singleton_append]
      exact segSpec_bindStep env env.install_dependencies .install_dependencies _ _ rfl
        (fun _ _ tr => segSpec_register env r tr) []
  obtain ⟨Δ, h2, hpre, hok, herr⟩ := hseg
  have hΔ : (deploy_full env r).2 = Δ := by simpa using h2
  rw [hΔ]
  exact ⟨hpre, hok, herr⟩

/-- C3 witness: a run whose build fails with "Build failed!": the result is
the wrapped error with that exact text, the trace ends at the build call,
and every earlier call succeeded. -/
theorem C3_witness :
    ∃ Δ₀ c, (deploy_full env_build_fails req0).2 = Δ₀ ++ [c] ∧
      callErr env_build_fails c = some "Build failed!" ∧
      ∀ c₀ ∈ Δ₀, callErr env_build_fails c₀ = none :=
  (C3_single_wrapped_error env_build_fails req0).2.2 ⟨"Build failed!"⟩ rfl

/-- C9: when every downstream call succeeds, `deploy_full` returns the url
`"https://" + domain` together with the distribution identifier and
hostname returned by `create_s3_distribution` and the certificate ARN
returned by `request_ssl_certificate`. -/
theorem C9_success_result :
    ∀ (env : PipelineEnv) (r : PipelineRequest) (arn : String)
      (recs : List ValidationRecord) (dist : DistInfo),
      (r.install = true → env.install_dependencies = .ok ()) →
      (∀ ci, r.contact_info = some ci →
        ∃ rr, env.register_domain r.domain ci r.duration_years = .ok rr) →
      env.run_build r.build_command = .ok () →
      env.deploy_s3 r.bucket_name true = .ok () →
      env.request_ssl_certificate r.domain true = .ok arn →
      env.get_acm_validation_records arn = .ok recs →
      env.add_acm_dns_records r.domain recs = .ok () →
      env.wait_for_certificate arn r.cert_timeout_minutes = .ok () →
      env.create_s3_distribution r.bucket_name r.domain arn = .ok dist →
      env.setup_cloudfront_dns r.domain dist.distribution_domain = .ok () →
      env.wait_for_distribution dist.distribution_id r.distribution_timeout_minutes = .ok () →
      (deploy_full env r).1 = Except.ok
        { url := "https://" ++ r.domain
          distribution_id := dist.distribution_id
          distribution_domain := dist.distribution_domain
          certificate_arn := arn } := by
  intro env r arn recs dist hin hreg hb hs3 hcert hval hadd hwait hdist hdns hwaitd
  cases hI : r.install with
  | false =>
    cases hC : r.contact_info with
    | none =>
      simp [deploy_full, deploy_steps_from_register, deploy_steps_from_build, bindStep,
        hI, hC, hb, hs3, hcert, hval, hadd, hwait, hdist, hdns, hwaitd]
    | some ci =>
      obtain ⟨rr, hrr⟩ := hreg ci hC
      simp [deploy_full, deploy_steps_from_register, deploy_steps_from_build, bindStep,
        hI, hC, hrr, hb, hs3, hcert, hval, hadd, hwait, hdist, hdns, hwaitd]
  | true =>
    have h1 : env.install_dependencies = .ok () := hin hI
    cases hC : r.contact_info with
    | none =>
      simp [deploy_full, deploy_steps_from_register, deploy_steps_from_build, bindStep,
        hI, hC, h1, hb, hs3, hcert, hval, hadd, hwait, hdist, hdns, hwaitd]
    | some ci =>
      obtain ⟨rr, hrr⟩ := hreg ci hC
      simp [deploy_full, deploy_steps_from_register, deploy_steps_from_build, bindStep,
        hI, hC, h1, hrr, hb, hs3, hcert, hval, hadd, hwait, hdist, hdns, hwaitd]

/-- C9 witness: the all-ok environment on a request enabling every optional
step returns the live url and echoes the identifiers of the fixtures. -/
theorem C9_witness :
    (deploy_full env_all_ok req_full).1 = Except.ok
      { url := "https://my-app.com"
        distribution_id := "E1ABCXYZ"
        distribution_domain := "d123.cloudfront.net"
        certificate_arn := "arn:aws:acm:us-east-1:123456789012:certificate/abc-123" } :=
  C9_success_result env_all_ok req_full
    "arn:aws:acm:us-east-1:123456789012:certificate/abc-123" [vrec0] dist0
    (fun _ => rfl) (fun _ _ => ⟨{ operation_id := "op-123-abc" }, rfl⟩)
    rfl rfl rfl rfl rfl rfl rfl rfl rfl

/-- C10: the ACM idempotency token sent by `request_ssl_certificate` is a
pure function of the domain — the domain with every `.` replaced by `-`,
truncated to its first 32 characters (so its length never exceeds 32) — and
it is not injective: two distinct domains whose transformed names agree on
the first 32 characters send the same token. -/
theorem C10_idempotency_token :
    (∀ (d : String) (w₁ w₂ : Bool),
      (request_certificate_kwargs d w₁).idempotencyToken
        = (request_certificate_kwargs d w₂).idempotencyToken) ∧
    (∀ (d : String) (w : Bool),
      (request_certificate_kwargs d w).idempotencyToken
        = String.mk ((d.data.map (fun c => if c = '.' then '-' else c)).take 32)) ∧
    (∀ (d : String) (w : Bool),
      (request_certificate_kwargs d w).idempotencyToken.length ≤ 32) ∧
    ("aaaaaaaaaaaaaaaaaaaaaaaaaaaaaaaa.com" ≠ ("aaaaaaaaaaaaaaaaaaaaaaaaaaaaaaaa.org" : String)) ∧
    ((request_certificate_kwargs "aaaaaaaaaaaaaaaaaaaaaaaaaaaaaaaa.com" true).idempotencyToken
      = (request_certificate_kwargs "aaaaaaaaaaaaaaaaaaaaaaaaaaaaaaaa.org" true).idempotencyToken) := by
  refine ⟨fun d w₁ w₂ => rfl, fun d w => rfl, fun d w => ?_, by decide, by decide⟩
  show (String.mk ((d.data.map (fun c => if c = '.' then '-' else c)).take 32)).length ≤ 32
  have h : (String.mk ((d.data.map (fun c => if c = '.' then '-' else c)).take 32)).length
      = ((d.data.map (fun c => if c = '.' then '-' else c)).take 32).length := rfl
  rw [h, List.length_take]
  exact Nat.min_le_left _ _
